import Mathlib

set_option maxRecDepth 4000

namespace Velocity

/-! Shallow embedding of the velocity database access layer
    (src-tauri/src/db/filters.rs, db/table_data.rs, db/pool/mutation.rs,
    db/pool/manager.rs, db/pool/utils.rs, db/pool/enums.rs,
    commands/database.rs). -/

/-- JSON values as carried by serde_json in the source. Numbers are modelled
as integers; no claim exercises floating-point payloads. -/
inductive Json where
  | null : Json
  | bool : Bool → Json
  | num : Int → Json
  | str : String → Json
  | arr : List Json → Json
  | obj : List (String × Json) → Json

/-- The apostrophe character, used for SQL string quoting. -/
def sq : String := String.singleton (Char.ofNat 39)

/-- Minimal serde_json string escaping (quote and backslash). -/
def escapeJsonString (s : String) : String :=
  s.foldl (fun acc c =>
    if c = Char.ofNat 34 then acc ++ "\\\""
    else if c = Char.ofNat 92 then acc ++ "\\\\"
    else acc ++ String.singleton c) ""

mutual

/-- serde_json compact serialization (`value.to_string()` in Rust). -/
def Json.render : Json → String
  | Json.null => "null"
  | Json.bool b => if b then "true" else "false"
  | Json.num n => toString n
  | Json.str s => "\"" ++ escapeJsonString s ++ "\""
  | Json.arr xs => "[" ++ Json.renderList xs ++ "]"
  | Json.obj fs => "\x7b" ++ Json.renderObj fs ++ "\x7d"

def Json.renderList : List Json → String
  | [] => ""
  | [x] => Json.render x
  | x :: y :: xs => Json.render x ++ "," ++ Json.renderList (y :: xs)

def Json.renderObj : List (String × Json) → String
  | [] => ""
  | [p] => "\"" ++ escapeJsonString p.1 ++ "\":" ++ Json.render p.2
  | p :: q :: ps =>
      "\"" ++ escapeJsonString p.1 ++ "\":" ++ Json.render p.2 ++ "," ++
        Json.renderObj (q :: ps)

end

/-- `Value::as_str()` in Rust: `Some` only for JSON strings. -/
def Json.asStr : Json → Option String
  | Json.str s => some s
  | _ => none

/-- filters.rs `json_to_sql_value`: convert a JSON value to the string pushed
into the parameter vector. Rust `bool::to_string` renders lowercase. -/
def json_to_sql_value : Json → String
  | Json.null => "NULL"
  | Json.bool b => if b then "true" else "false"
  | Json.num n => toString n
  | Json.str s => s
  | v => Json.render v

/-- filters.rs `FilterOperator`. -/
inductive FilterOperator where
  | Equals | NotEquals | Like | IsNull | IsNotNull | In | GreaterThan | LessThan
deriving Repr, DecidableEq

/-- filters.rs `ColumnFilter`. -/
structure ColumnFilter where
  column : String
  operator : FilterOperator
  value : Option Json

/-- filters.rs `SortDirection`. -/
inductive SortDirection where
  | Asc | Desc
deriving Repr, DecidableEq

/-- filters.rs `SortConfig`. -/
structure SortConfig where
  column : String
  direction : SortDirection

/-- filters.rs `FilterLogic`. -/
inductive FilterLogic where
  | And | Or
deriving Repr, DecidableEq

/-- filters.rs `CursorDirection`. -/
inductive CursorDirection where
  | After | Before
deriving Repr, DecidableEq

/-- filters.rs `CursorConfig`. -/
structure CursorConfig where
  column : String
  direction : CursorDirection
  value : Json

/-- filters.rs `QueryOptions`. -/
structure QueryOptions where
  filters : List ColumnFilter := []
  filter_logic : FilterLogic := FilterLogic.And
  sort : Option SortConfig := none
  limit : Int := 100
  offset : Int := 0
  cursor : Option CursorConfig := none
  skip_count : Bool := false
  selected_columns : Option (List String) := none

/-- One iteration of the filter loop in `build_where_clause`
(filters.rs lines 133-201): the state is the `(conditions, params)` pair.
For `In`, the Rust closure pushes each array element and numbers its
placeholder with the parameter count after the push, so element `i` of the
array gets placeholder `$(params.len + i + 1)`. -/
def where_step (st : List String × List String) (f : ColumnFilter) :
    List String × List String :=
  let conds := st.1
  let params := st.2
  match f.operator with
  | FilterOperator.Equals =>
      match f.value with
      | some v =>
          (conds ++ ["\"" ++ f.column ++ "\" = $" ++ toString (params.length + 1)],
           params ++ [json_to_sql_value v])
      | none => st
  | FilterOperator.NotEquals =>
      match f.value with
      | some v =>
          (conds ++ ["\"" ++ f.column ++ "\" != $" ++ toString (params.length + 1)],
           params ++ [json_to_sql_value v])
      | none => st
  | FilterOperator.Like =>
      match f.value with
      | some v =>
          (conds ++ ["\"" ++ f.column ++ "\" ILIKE $" ++ toString (params.length + 1)],
           params ++ ["%" ++ (Json.asStr v).getD "" ++ "%"])
      | none => st
  | FilterOperator.IsNull =>
      (conds ++ ["\"" ++ f.column ++ "\" IS NULL"], params)
  | FilterOperator.IsNotNull =>
      (conds ++ ["\"" ++ f.column ++ "\" IS NOT NULL"], params)
  | FilterOperator.In =>
      match f.value with
      | some (Json.arr a) =>
          if a.isEmpty then st
          else
            let placeholders := (List.range a.length).map
              (fun i => "$" ++ toString (params.length + i + 1))
            (conds ++ ["\"" ++ f.column ++ "\" IN (" ++
               String.intercalate ", " placeholders ++ ")"],
             params ++ a.map json_to_sql_value)
      | _ => st
  | FilterOperator.GreaterThan =>
      match f.value with
      | some v =>
          (conds ++ ["\"" ++ f.column ++ "\" > $" ++ toString (params.length + 1)],
           params ++ [json_to_sql_value v])
      | none => st
  | FilterOperator.LessThan =>
      match f.value with
      | some v =>
          (conds ++ ["\"" ++ f.column ++ "\" < $" ++ toString (params.length + 1)],
           params ++ [json_to_sql_value v])
      | none => st

/-- filters.rs `QueryOptions::build_where_clause`. -/
def build_where_clause (o : QueryOptions) : String × List String :=
  if o.filters.isEmpty then ("", [])
  else
    let cp := o.filters.foldl where_step ([], [])
    if cp.1.isEmpty then ("", [])
    else
      let joiner := match o.filter_logic with
        | FilterLogic.And => " AND "
        | FilterLogic.Or => " OR "
      (" WHERE " ++ String.intercalate joiner cp.1, cp.2)

/-- filters.rs `QueryOptions::build_cursor_clause`. -/
def build_cursor_clause (o : QueryOptions) : Option (String × String) :=
  o.cursor.map (fun c =>
    let operator := match c.direction with
      | CursorDirection.After => ">"
      | CursorDirection.Before => "<"
    ("\"" ++ c.column ++ "\" " ++ operator ++ " ?", json_to_sql_value c.value))

/-- filters.rs `QueryOptions::build_order_clause`. -/
def build_order_clause (o : QueryOptions) : String :=
  match o.cursor with
  | some cursor =>
      let direction := match cursor.direction with
        | CursorDirection.After => "ASC"
        | CursorDirection.Before => "DESC"
      " ORDER BY \"" ++ cursor.column ++ "\" " ++ direction
  | none =>
      match o.sort with
      | some sort =>
          let direction := match sort.direction with
            | SortDirection.Asc => "ASC"
            | SortDirection.Desc => "DESC"
          " ORDER BY \"" ++ sort.column ++ "\" " ++ direction
      | none => ""

/-- filters.rs `QueryOptions::build_pagination_clause`. -/
def build_pagination_clause (o : QueryOptions) : String :=
  if o.cursor.isSome then " LIMIT " ++ toString o.limit
  else " LIMIT " ++ toString o.limit ++ " OFFSET " ++ toString o.offset

/-- filters.rs `QueryOptions::build_select_columns`. -/
def build_select_columns (o : QueryOptions) : String :=
  match o.selected_columns with
  | some cols =>
      if cols.isEmpty then "*"
      else String.intercalate ", " (cols.map (fun c => "\"" ++ c ++ "\""))
  | none => "*"

/-- filters.rs `QueryOptions::uses_cursor`. -/
def uses_cursor (o : QueryOptions) : Bool :=
  o.cursor.isSome

/-- pool/enums.rs `DatabasePool`: the engine tag of the wrapped pool. The
native pool/client handles themselves live behind the driver and carry no
logic of their own, so only the tag is modelled. -/
inductive DatabasePool where
  | Postgres | MySQL | SQLite | SQLServer | Redis | MongoDB
deriving Repr, DecidableEq

/-- The engines whose pools support `begin`/`commit`/`rollback` (the three
`sqlx` pool variants of enums.rs). -/
def DatabasePool.transactional : DatabasePool → Bool
  | DatabasePool.Postgres => true
  | DatabasePool.MySQL => true
  | DatabasePool.SQLite => true
  | _ => false

/-- table_data.rs lines 37-50: the WHERE clause of the main query, i.e. the
filter clause with the cursor condition appended with AND when a cursor is
set. -/
def fetch_where_clause (o : QueryOptions) : String :=
  let wc := (build_where_clause o).1
  match build_cursor_clause o with
  | none => wc
  | some cp =>
      if wc.isEmpty then " WHERE " ++ cp.1
      else wc ++ " AND " ++ cp.1

/-- table_data.rs lines 53-56: the main data query text. -/
def fetch_main_query (o : QueryOptions) (table_name : String) : String :=
  "SELECT " ++ build_select_columns o ++ " FROM \"" ++ table_name ++ "\"" ++
    fetch_where_clause o ++ build_order_clause o ++ build_pagination_clause o

/-- table_data.rs lines 59-66: the COUNT query text — built from the plain
filter clause (no cursor condition) and carrying no LIMIT/OFFSET. -/
def fetch_count_query (o : QueryOptions) (table_name : String) : String :=
  "SELECT COUNT(*) as count FROM \"" ++ table_name ++ "\"" ++
    (build_where_clause o).1

/-- The query-level outcome of `fetch_table_data` for a relational engine:
the SQL texts it executes, the parameters it binds to the main query, and
the returned total count. In the source the main query is executed as
`sqlx::query(&query)` with no `.bind` call — the parameter vector returned
by `build_where_clause` is discarded (`_params`, table_data.rs line 37) —
so `mainBinds` is empty. -/
structure FetchQueries where
  mainSql : String
  mainBinds : List String
  countSql : String
  totalCount : Option Int
deriving Repr, DecidableEq

/-- table_data.rs `fetch_table_data`, modelled at the query level: the
construction of the SQL texts, the skip_count logic and the engine
dispatch. `countOracle` stands for the database's answer to the COUNT
query. Row decoding and next_cursor extraction are driver-side and not
needed by any claim. -/
def fetch_table_data (countOracle : String → Int) (pool : DatabasePool)
    (o : QueryOptions) (table_name : String) :
    Except String FetchQueries :=
  match pool with
  | DatabasePool.Postgres | DatabasePool.MySQL | DatabasePool.SQLite =>
      Except.ok
        { mainSql := fetch_main_query o table_name
          mainBinds := []
          countSql := fetch_count_query o table_name
          totalCount :=
            if o.skip_count then none
            else some (countOracle (fetch_count_query o table_name)) }
  | DatabasePool.Redis =>
      Except.error "Redis does not support table data fetching"
  | DatabasePool.SQLServer =>
      Except.error "SQL Server support coming soon"
  | DatabasePool.MongoDB =>
      Except.error "MongoDB uses get_table_data, not fetch_table_data"

/-- pool/utils.rs `format_value_for_sql`. -/
def format_value_for_sql : Json → String
  | Json.null => "NULL"
  | Json.bool b => if b then "TRUE" else "FALSE"
  | Json.num n => toString n
  | Json.str s => sq ++ s.replace sq (sq ++ sq) ++ sq
  | v => sq ++ (Json.render v).replace sq (sq ++ sq) ++ sq

/-- Whether a string parses as a Rust i64 or f64 (`pk.parse::<i64>()` /
`pk.parse::<f64>()` in utils.rs): an optional sign followed by digits, with
an optional single decimal point. This covers every primary-key shape the
claims exercise. -/
def parses_as_number (s : String) : Bool :=
  let body := if s.startsWith "-" || s.startsWith "+" then s.drop 1 else s
  let parts := body.splitOn "."
  match parts with
  | [intPart] => !intPart.isEmpty && intPart.all Char.isDigit
  | [intPart, fracPart] =>
      !(intPart.isEmpty && fracPart.isEmpty) &&
        intPart.all Char.isDigit && fracPart.all Char.isDigit
  | _ => false

/-- pool/utils.rs `format_pk_for_sql`. -/
def format_pk_for_sql (pk : String) : String :=
  if parses_as_number pk then pk
  else sq ++ pk.replace sq (sq ++ sq) ++ sq

/-- commands/database.rs `PendingChange`. -/
structure PendingChange where
  row_id : String
  column : String
  old_value : Json
  new_value : Json
  change_type : String

/-- commands/database.rs `ExecuteResult`. -/
structure ExecuteResult where
  success : Bool
  rows_affected : Int
  errors : List String
deriving Repr, DecidableEq

/-- pool/mutation.rs: the statement built for one `PendingChange` in the
engine's branch of `execute_changes`, or `none` when the change type falls
through to `_ => continue` there. The Postgres branch handles
update/delete/insert with double-quoted identifiers (lines 25-57); the
MySQL branch handles only update/delete with backtick quoting (lines
82-105); the SQLite branch handles only update/delete with double quotes
(lines 130-153). -/
def change_sql (pool : DatabasePool) (table_name primary_key_column : String)
    (c : PendingChange) : Option String :=
  match pool with
  | DatabasePool.Postgres =>
      match c.change_type with
      | "update" => some ("UPDATE \"" ++ table_name ++ "\" SET \"" ++ c.column ++
          "\" = " ++ format_value_for_sql c.new_value ++ " WHERE \"" ++
          primary_key_column ++ "\" = " ++ format_pk_for_sql c.row_id)
      | "delete" => some ("DELETE FROM \"" ++ table_name ++ "\" WHERE \"" ++
          primary_key_column ++ "\" = " ++ format_pk_for_sql c.row_id)
      | "insert" => some ("INSERT INTO \"" ++ table_name ++ "\" (\"" ++
          c.column ++ "\") VALUES (" ++ format_value_for_sql c.new_value ++ ")")
      | _ => none
  | DatabasePool.MySQL =>
      match c.change_type with
      | "update" => some ("UPDATE `" ++ table_name ++ "` SET `" ++ c.column ++
          "` = " ++ format_value_for_sql c.new_value ++ " WHERE `" ++
          primary_key_column ++ "` = " ++ format_pk_for_sql c.row_id)
      | "delete" => some ("DELETE FROM `" ++ table_name ++ "` WHERE `" ++
          primary_key_column ++ "` = " ++ format_pk_for_sql c.row_id)
      | _ => none
  | DatabasePool.SQLite =>
      match c.change_type with
      | "update" => some ("UPDATE \"" ++ table_name ++ "\" SET \"" ++ c.column ++
          "\" = " ++ format_value_for_sql c.new_value ++ " WHERE \"" ++
          primary_key_column ++ "\" = " ++ format_pk_for_sql c.row_id)
      | "delete" => some ("DELETE FROM \"" ++ table_name ++ "\" WHERE \"" ++
          primary_key_column ++ "\" = " ++ format_pk_for_sql c.row_id)
      | _ => none
  | _ => none

/-- The change types for which an engine's branch of `execute_changes`
builds a statement: update/delete/insert for Postgres, only update/delete
for MySQL and SQLite (their branches have no insert arm), nothing for the
non-transactional engines. -/
def handled_change_types (pool : DatabasePool) : List String :=
  match pool with
  | DatabasePool.Postgres => ["update", "delete", "insert"]
  | DatabasePool.MySQL => ["update", "delete"]
  | DatabasePool.SQLite => ["update", "delete"]
  | _ => []

/-- One iteration of the change loop in `execute_changes`: the state is
`(db, rows_affected, errors, executed-statement trace)`. A successful
statement adds its row count; a failed one records
`change_type ++ ": " ++ error` (mutation.rs lines 59-62) and the loop
continues. `exec` stands for running one SQL statement inside the open
transaction: it yields the new transaction-local database state and the
statement's affected-row count, or the driver's error message. -/
def mutation_step {DB : Type} (exec : DB → String → Except String (DB × Nat))
    (pool : DatabasePool) (table_name primary_key_column : String)
    (st : DB × Int × List String × List String) (c : PendingChange) :
    DB × Int × List String × List String :=
  match st with
  | (db, rows, errs, tr) =>
    match change_sql pool table_name primary_key_column c with
    | none => (db, rows, errs, tr)
    | some sql =>
        match exec db sql with
        | Except.ok dn => (dn.1, rows + (dn.2 : Int), errs, tr ++ [sql])
        | Except.error e =>
            (db, rows, errs ++ [c.change_type ++ ": " ++ e], tr ++ [sql])

/-- pool/mutation.rs `execute_changes`, parametrised by the statement
executor `exec` and the database state `db` at `begin` time. The returned
triple is the `ExecuteResult`, the database state after commit/rollback
(rollback restores the `begin`-time state), and the trace of executed
statements. Non-transactional engines are rejected up front
(mutation.rs lines 171-175). -/
def execute_changes {DB : Type} (exec : DB → String → Except String (DB × Nat))
    (pool : DatabasePool) (db : DB) (table_name primary_key_column : String)
    (changes : List PendingChange) :
    Except String (ExecuteResult × DB × List String) :=
  match pool with
  | DatabasePool.Postgres | DatabasePool.MySQL | DatabasePool.SQLite =>
      let final := changes.foldl
        (mutation_step exec pool table_name primary_key_column) (db, 0, [], [])
      match final with
      | (dbW, rows, errs, tr) =>
          let dbF := if errs.isEmpty then dbW else db
          Except.ok
            ({ success := errs.isEmpty, rows_affected := rows, errors := errs },
             dbF, tr)
  | _ => Except.error "Execute changes not supported for this database type"

/-- pool/manager.rs: one stored pool together with the number of `Arc`
clones of it currently held outside the registry map (handed out by
`get_pool` and still alive). -/
structure PoolEntry where
  pool : DatabasePool
  extraRefs : Nat

/-- pool/manager.rs: the contents of the registry's
`RwLock<HashMap<String, Arc<DatabasePool>>>`. -/
abbrev Pools := String → Option PoolEntry

/-- pool/manager.rs `is_connected`. -/
def is_connected (ps : Pools) (connection_id : String) : Bool :=
  (ps connection_id).isSome

/-- pool/manager.rs `get_pool`: clones the stored `Arc`, so the caller now
holds one more reference to the pool. -/
def get_pool (ps : Pools) (connection_id : String) :
    Option DatabasePool × Pools :=
  match ps connection_id with
  | none => (none, ps)
  | some e =>
      (some e.pool,
       fun k => if k = connection_id
         then some { e with extraRefs := e.extraRefs + 1 }
         else ps k)

/-- Outcome of `disconnect`: the returned `Result` (always `Ok(())`),
whether `pool.close().await` actually ran, and the registry afterwards. -/
structure DisconnectResult where
  ok : Bool
  closed : Bool
  state : Pools

/-- pool/manager.rs `disconnect` (lines 54-69): remove the entry if present;
`Arc::try_unwrap` succeeds only when the map held the last reference, and
only the three relational arms call `close()` — the SQLServer, Redis and
MongoDB arms do nothing. Every path returns `Ok(())`. -/
def disconnect (ps : Pools) (connection_id : String) : DisconnectResult :=
  match ps connection_id with
  | none => { ok := true, closed := false, state := ps }
  | some e =>
      { ok := true
        closed := (e.extraRefs == 0) && e.pool.transactional
        state := fun k => if k = connection_id then none else ps k }

/-! Reference formulations used to state the claims about
`build_where_clause` (spec §8), and concrete inputs for the
counterexamples and witnesses. -/

/-- The condition and parameters one filter contributes when the parameter
vector already holds `start` entries, with placeholders numbered explicitly
from `start + 1`; `none` when the filter is skipped. -/
def cond_at (f : ColumnFilter) (start : Nat) : Option (String × List String) :=
  match f.operator with
  | FilterOperator.Equals =>
      f.value.map (fun v =>
        ("\"" ++ f.column ++ "\" = $" ++ toString (start + 1),
         [json_to_sql_value v]))
  | FilterOperator.NotEquals =>
      f.value.map (fun v =>
        ("\"" ++ f.column ++ "\" != $" ++ toString (start + 1),
         [json_to_sql_value v]))
  | FilterOperator.Like =>
      f.value.map (fun v =>
        ("\"" ++ f.column ++ "\" ILIKE $" ++ toString (start + 1),
         ["%" ++ (Json.asStr v).getD "" ++ "%"]))
  | FilterOperator.IsNull =>
      some ("\"" ++ f.column ++ "\" IS NULL", [])
  | FilterOperator.IsNotNull =>
      some ("\"" ++ f.column ++ "\" IS NOT NULL", [])
  | FilterOperator.In =>
      match f.value with
      | some (Json.arr a) =>
          if a.isEmpty then none
          else
            some ("\"" ++ f.column ++ "\" IN (" ++
              String.intercalate ", " ((List.range a.length).map
                (fun i => "$" ++ toString (start + i + 1))) ++ ")",
              a.map json_to_sql_value)
      | _ => none
  | FilterOperator.GreaterThan =>
      f.value.map (fun v =>
        ("\"" ++ f.column ++ "\" > $" ++ toString (start + 1),
         [json_to_sql_value v]))
  | FilterOperator.LessThan =>
      f.value.map (fun v =>
        ("\"" ++ f.column ++ "\" < $" ++ toString (start + 1),
         [json_to_sql_value v]))

/-- Sequentially numbered conditions and parameters for a filter list,
starting the placeholder numbering after `start` existing parameters. -/
def seq_conditions : List ColumnFilter → Nat → List String × List String
  | [], _ => ([], [])
  | f :: fs, start =>
      match cond_at f start with
      | none => seq_conditions fs start
      | some cp =>
          let rest := seq_conditions fs (start + cp.2.length)
          (cp.1 :: rest.1, cp.2 ++ rest.2)

/-- How many positional placeholders a filter emits (`none` = skipped):
one for the scalar-valued operators, zero for the null checks, the array
length for `In`. -/
def filter_arity (f : ColumnFilter) : Option Nat :=
  match f.operator with
  | FilterOperator.IsNull => some 0
  | FilterOperator.IsNotNull => some 0
  | FilterOperator.In =>
      match f.value with
      | some (Json.arr a) => if a.isEmpty then none else some a.length
      | _ => none
  | _ => f.value.map (fun _ => 1)

/-- Total placeholder count over a filter list. -/
def arity_sum (fs : List ColumnFilter) : Nat :=
  fs.foldr (fun f acc => (filter_arity f).getD 0 + acc) 0

/-- Modelled from the spec: the count of "filters with resolvable values" —
filters whose operator takes a value and whose value is present (for `In`,
present as a non-empty array); the null-check operators carry no value. -/
def spec_resolvable_count (fs : List ColumnFilter) : Nat :=
  (fs.filter (fun f =>
    match f.operator, f.value with
    | FilterOperator.IsNull, _ => false
    | FilterOperator.IsNotNull, _ => false
    | FilterOperator.In, some (Json.arr a) => !a.isEmpty
    | FilterOperator.In, _ => false
    | _, some _ => true
    | _, none => false)).length

/-- Occurrences of a character in a string. -/
def count_char (c : Char) (s : String) : Nat :=
  (s.toList.filter (fun x => x = c)).length

/-- Single-Equals-filter options used by the C3 and C4 examples. -/
def oEq : QueryOptions :=
  { filters := [{ column := "status", operator := FilterOperator.Equals,
                  value := some (Json.str "active") }] }

/-- Options with a cursor and a conflicting explicit sort, for C5/C6. -/
def oCur : QueryOptions :=
  { filters := [{ column := "status", operator := FilterOperator.Equals,
                  value := some (Json.str "active") }]
    filter_logic := FilterLogic.Or
    sort := some { column := "name", direction := SortDirection.Desc }
    limit := 5
    offset := 40
    cursor := some { column := "id", direction := CursorDirection.After,
                     value := Json.num 10 } }

/-- Options with one `In` filter over two values, for C8. -/
def oIn : QueryOptions :=
  { filters := [{ column := "c", operator := FilterOperator.In,
                  value := some (Json.arr [Json.num 1, Json.num 2]) }] }

/-- A pending update of row 1, used by the mutation examples. -/
def chUpd1 : PendingChange :=
  { row_id := "1", column := "name", old_value := Json.null,
    new_value := Json.str "a", change_type := "update" }

/-- A pending update of row 2, used by the mutation examples. -/
def chUpd2 : PendingChange :=
  { row_id := "2", column := "name", old_value := Json.null,
    new_value := Json.str "b", change_type := "update" }

/-- A pending insert, used by the mutation examples. -/
def chIns : PendingChange :=
  { row_id := "3", column := "name", old_value := Json.null,
    new_value := Json.str "c", change_type := "insert" }

/-- A pending change of an unrecognized type, for C10. -/
def chNoop : PendingChange :=
  { row_id := "4", column := "name", old_value := Json.null,
    new_value := Json.str "d", change_type := "upsert" }

/-- A statement executor over `Nat` states under which the first statement
succeeds (one row affected) and every later one fails. -/
def execFailSecond : Nat → String → Except String (Nat × Nat) :=
  fun db _ => if db == 0 then Except.ok (1, 1) else Except.error "dup"

/-- A statement executor under which every statement succeeds with one row
affected. -/
def execAllOk : Nat → String → Except String (Nat × Nat) :=
  fun db _ => Except.ok (db + 1, 1)

/-- The statements `execute_changes` runs for `[chUpd1, chUpd2]` on
Postgres. -/
def trUpd : List String :=
  [chUpd1, chUpd2].filterMap (change_sql DatabasePool.Postgres "users" "id")

/-- A registry holding one Postgres pool under "a" with one `Arc` clone of
it still held outside the map (as after a `get_pool` call). -/
def psShared : Pools :=
  fun k => if k = "a" then some { pool := DatabasePool.Postgres, extraRefs := 1 }
    else none

/-- A registry holding one Postgres pool under "a" and nothing else, with
no outstanding clone. -/
def psSole : Pools :=
  fun k => if k = "a" then some { pool := DatabasePool.Postgres, extraRefs := 0 }
    else none

/-- Options selecting two explicit columns, used by the C4 witness. -/
def oSel : QueryOptions :=
  { selected_columns := some ["a", "b"] }

/-- `oEq` with the COUNT query skipped, used by the C7 witness. -/
def oSkip : QueryOptions :=
  { filters := oEq.filters, skip_count := true }

/-- The query-level outcome `fetch_table_data` produces for `oSkip` on a
relational engine. -/
def qSkip : FetchQueries :=
  { mainSql := "SELECT * FROM \"users\" WHERE \"status\" = $1 LIMIT 100 OFFSET 0"
    mainBinds := []
    countSql := "SELECT COUNT(*) as count FROM \"users\" WHERE \"status\" = $1"
    totalCount := none }

/-! Helper lemmas. -/

/-- One step of the filter loop equals the explicitly numbered condition
builder applied at the current parameter count. -/
lemma where_step_eq (st : List String × List String) (f : ColumnFilter) :
    where_step st f =
      match cond_at f st.2.length with
      | none => st
      | some cp => (st.1 ++ [cp.1], st.2 ++ cp.2) := by
  obtain ⟨conds, params⟩ := st
  obtain ⟨col, op, val⟩ := f
  cases op
  case In =>
    rcases val with _ | v
    · simp [where_step, cond_at]
    · rcases v with _ | _ | _ | _ | a | _ <;> try simp [where_step, cond_at]
      by_cases h : a.isEmpty <;> simp [where_step, cond_at, h]
  all_goals cases val <;> simp [where_step, cond_at]

/-- The filter fold appends exactly the sequentially numbered conditions
and parameters. -/
lemma foldl_where_step (fs : List ColumnFilter) :
    ∀ conds params : List String,
      fs.foldl where_step (conds, params) =
        (conds ++ (seq_conditions fs params.length).1,
         params ++ (seq_conditions fs params.length).2) := by
  induction fs with
  | nil => intro conds params; simp [seq_conditions]
  | cons f fs ih =>
      intro conds params
      rw [List.foldl_cons, where_step_eq]
      cases hc : cond_at f (conds, params).2.length with
      | none => simpa [seq_conditions, hc] using ih conds params
      | some cp =>
          simp only [seq_conditions, hc]
          rw [ih]
          simp [List.length_append]

/-- `cond_at` emits exactly `filter_arity` parameters. -/
lemma cond_at_length (f : ColumnFilter) (s : Nat) :
    (cond_at f s).map (fun cp => cp.2.length) = filter_arity f := by
  obtain ⟨col, op, val⟩ := f
  cases op
  case In =>
    rcases val with _ | v
    · simp [cond_at, filter_arity]
    · rcases v with _ | _ | _ | _ | a | _ <;> try simp [cond_at, filter_arity]
      by_cases h : a.isEmpty <;> simp [cond_at, filter_arity, h]
  all_goals cases val <;> simp [cond_at, filter_arity]

/-- The sequentially numbered parameter list has `arity_sum` entries. -/
lemma seq_conditions_params_length (fs : List ColumnFilter) :
    ∀ s : Nat, (seq_conditions fs s).2.length = arity_sum fs := by
  induction fs with
  | nil => intro s; rfl
  | cons f fs ih =>
      intro s
      have hca := cond_at_length f s
      cases hc : cond_at f s with
      | none =>
          have : filter_arity f = none := by rw [← hca, hc]; rfl
          simp [seq_conditions, hc, arity_sum, this, ih]
      | some cp =>
          have : filter_arity f = some cp.2.length := by rw [← hca, hc]; rfl
          simp [seq_conditions, hc, arity_sum, this, ih]

/-- `build_where_clause` in canonical form: the sequentially numbered
conditions joined by the configured logic operator. -/
lemma build_where_clause_eq (o : QueryOptions) :
    build_where_clause o =
      (if (seq_conditions o.filters 0).1.isEmpty then ("", [])
       else
         (" WHERE " ++ String.intercalate
            (match o.filter_logic with
             | FilterLogic.And => " AND "
             | FilterLogic.Or => " OR ") (seq_conditions o.filters 0).1,
          (seq_conditions o.filters 0).2)) := by
  unfold build_where_clause
  by_cases hf : o.filters.isEmpty
  · have : o.filters = [] := List.isEmpty_iff.mp hf
    simp [hf, this, seq_conditions]
  · have hfold := foldl_where_step o.filters ([] : List String) ([] : List String)
    simp only [List.length_nil] at hfold
    simp [hf, hfold]

/-- The trace of executed statements is the per-engine statement builder
mapped over the batch, independent of execution results. -/
lemma mutation_foldl_trace {DB : Type}
    (exec : DB → String → Except String (DB × Nat)) (pool : DatabasePool)
    (t pk : String) (cs : List PendingChange) :
    ∀ (db : DB) (rows : Int) (errs tr : List String),
      (cs.foldl (mutation_step exec pool t pk) (db, rows, errs, tr)).2.2.2
        = tr ++ cs.filterMap (change_sql pool t pk) := by
  induction cs with
  | nil => intro db rows errs tr; simp
  | cons c cs ih =>
      intro db rows errs tr
      rw [List.foldl_cons]
      cases hc : change_sql pool t pk c with
      | none => simp [mutation_step, hc, ih]
      | some sql =>
          cases hx : exec db sql with
          | ok dn => simp [mutation_step, hc, hx, ih]
          | error e => simp [mutation_step, hc, hx, ih]

/-- A change whose type is none of insert/update/delete builds no statement
on any engine. -/
lemma change_sql_none_of_unrecognized (pool : DatabasePool) (t pk : String)
    (c : PendingChange) (h1 : c.change_type ≠ "insert")
    (h2 : c.change_type ≠ "update") (h3 : c.change_type ≠ "delete") :
    change_sql pool t pk c = none := by
  cases pool <;> simp only [change_sql]

/-- A change whose type lies outside the engine branch's handled set
builds no statement on that engine. -/
lemma change_sql_none_of_unhandled (pool : DatabasePool) (t pk : String)
    (c : PendingChange) (h : c.change_type ∉ handled_change_types pool) :
    change_sql pool t pk c = none := by
  cases pool
  case Postgres =>
    simp [handled_change_types] at h
    obtain ⟨h1, h2, h3⟩ := h
    simp only [change_sql]
  case MySQL =>
    simp [handled_change_types] at h
    obtain ⟨h1, h2⟩ := h
    simp only [change_sql]
  case SQLite =>
    simp [handled_change_types] at h
    obtain ⟨h1, h2⟩ := h
    simp only [change_sql]
  all_goals rfl

/-- The change loop is the identity when every change builds no
statement. -/
lemma mutation_foldl_all_none {DB : Type}
    (exec : DB → String → Except String (DB × Nat)) (pool : DatabasePool)
    (t pk : String) :
    ∀ (cs : List PendingChange) (st : DB × Int × List String × List String),
      (∀ c ∈ cs, change_sql pool t pk c = none) →
      cs.foldl (mutation_step exec pool t pk) st = st := by
  intro cs
  induction cs with
  | nil => intro st _; rfl
  | cons c cs ih =>
      intro st h
      rw [List.foldl_cons]
      have hc : change_sql pool t pk c = none := h c (by simp)
      have hst : mutation_step exec pool t pk st c = st := by
        obtain ⟨db, rows, errs, tr⟩ := st
        simp [mutation_step, hc]
      rw [hst]
      exact ih st (fun x hx => h x (by simp [hx]))

/-- For transactional engines, `execute_changes` is the change loop followed
by the commit/rollback decision on the recorded errors. -/
lemma execute_changes_tx {DB : Type}
    (exec : DB → String → Except String (DB × Nat)) (pool : DatabasePool)
    (hpool : pool.transactional = true) (db : DB) (t pk : String)
    (cs : List PendingChange) :
    execute_changes exec pool db t pk cs =
      (match cs.foldl (mutation_step exec pool t pk) (db, 0, [], []) with
       | (dbW, rows, errs, tr) =>
          Except.ok
            ({ success := errs.isEmpty, rows_affected := rows, errors := errs },
             if errs.isEmpty then dbW else db, tr)) := by
  cases pool <;> simp [DatabasePool.transactional] at hpool <;> rfl

/-- When the sequentially numbered condition list is empty so is its
parameter list. -/
lemma seq_conditions_conds_empty (fs : List ColumnFilter) :
    ∀ s : Nat, (seq_conditions fs s).1 = [] → (seq_conditions fs s).2 = [] := by
  induction fs with
  | nil => intro s _; rfl
  | cons f fs ih =>
      intro s h
      cases hc : cond_at f s with
      | none =>
          simp only [seq_conditions, hc] at h ⊢
          exact ih s h
      | some cp => simp [seq_conditions, hc] at h

end Velocity

namespace Velocity

/-- C1 (counterexample): on Postgres, a batch whose first update succeeds
(1 row) and whose second fails is rolled back — the returned database
state is the initial one — yet the returned `rows_affected` is 1, not 0,
while `success` is false. This refutes "rows_affected is 0 whenever
success is false". -/
theorem claim_C1_counterexample :
    execute_changes execFailSecond DatabasePool.Postgres (0 : Nat) "users" "id"
      [chUpd1, chUpd2] =
      Except.ok
        ({ success := false, rows_affected := 1, errors := ["update: dup"] },
         (0 : Nat), trUpd)
  ∧ (1 : Int) ≠ 0 :=
  ⟨rfl, by decide⟩

/-- C1 (amended): for every transactional engine, when any change in the
batch fails, `execute_changes` rolls the whole transaction back — the
resulting database state equals the state at `begin` time, i.e. zero net
effect — and reports `success := false`; the returned `rows_affected`,
however, still counts the statements that succeeded inside the rolled-back
transaction, so it need not be 0. -/
theorem claim_C1_amended {DB : Type}
    (exec : DB → String → Except String (DB × Nat)) (pool : DatabasePool)
    (hpool : pool.transactional = true) (db : DB) (t pk : String)
    (cs : List PendingChange) (res : ExecuteResult) (dbF : DB)
    (tr : List String)
    (hrun : execute_changes exec pool db t pk cs = Except.ok (res, dbF, tr))
    (hfail : res.errors ≠ []) :
    res.success = false ∧ dbF = db := by
  rw [execute_changes_tx exec pool hpool db t pk cs] at hrun
  rcases hfold : cs.foldl (mutation_step exec pool t pk) (db, 0, [], [])
    with ⟨dbW, rows, errs, tr0⟩
  rw [hfold] at hrun
  simp only [Except.ok.injEq, Prod.mk.injEq] at hrun
  obtain ⟨hres, hdbF, -⟩ := hrun
  have herrs : res.errors = errs := by rw [← hres]
  have hne : errs ≠ [] := herrs ▸ hfail
  have hempty : errs.isEmpty = false := by
    cases errs with
    | nil => exact absurd rfl hne
    | cons a l => rfl
  constructor
  · rw [← hres]; simp [hempty]
  · rw [← hdbF]; simp [hempty]

/-- C1 (witness): the amended theorem applied to the concrete two-change
Postgres batch whose second update fails. -/
theorem claim_C1_amended_witness :
    ({ success := false, rows_affected := 1, errors := ["update: dup"] } :
      ExecuteResult).success = false ∧ (0 : Nat) = 0 :=
  claim_C1_amended execFailSecond DatabasePool.Postgres rfl 0 "users" "id"
    [chUpd1, chUpd2]
    { success := false, rows_affected := 1, errors := ["update: dup"] } 0 trUpd
    rfl (by simp)

/-- C2 (counterexample): on MySQL an "insert" change is silently skipped —
no statement is executed (empty trace), no error is recorded and the batch
commits — even under an executor that would have accepted any statement.
This refutes the claim that every transactional engine builds and executes
an INSERT for insert changes. -/
theorem claim_C2_counterexample :
    execute_changes execAllOk DatabasePool.MySQL (0 : Nat) "users" "id"
      [chIns] =
      Except.ok ({ success := true, rows_affected := 0, errors := [] },
        (0 : Nat), ([] : List String))
  ∧ chIns.change_type = "insert"
  ∧ execAllOk 0 "any statement" = Except.ok (1, 1) :=
  ⟨rfl, rfl, rfl⟩

/-- C2 (amended): for every transactional engine, the statements executed
inside the transaction are exactly those the engine's branch builds for
the batch, in order — UPDATE/DELETE/INSERT for Postgres, only
UPDATE/DELETE for MySQL (backtick quoting) and SQLite: insert changes are
skipped there, not executed; `success` is exactly "no error was
recorded", and failures are reported as change-type-prefixed strings (see
the trace equality and the per-type statement facts below). -/
theorem claim_C2_amended {DB : Type}
    (exec : DB → String → Except String (DB × Nat)) (pool : DatabasePool)
    (hpool : pool.transactional = true) (db : DB) (t pk : String)
    (cs : List PendingChange) (res : ExecuteResult) (dbF : DB)
    (tr : List String)
    (hrun : execute_changes exec pool db t pk cs = Except.ok (res, dbF, tr)) :
    tr = cs.filterMap (change_sql pool t pk)
  ∧ res.success = res.errors.isEmpty
  ∧ (∀ c : PendingChange,
      c.change_type = "update" ∨ c.change_type = "delete" →
        (change_sql pool t pk c).isSome = true)
  ∧ (∀ c : PendingChange, c.change_type = "insert" →
      change_sql DatabasePool.Postgres t pk c =
        some ("INSERT INTO \"" ++ t ++ "\" (\"" ++ c.column ++
          "\") VALUES (" ++ format_value_for_sql c.new_value ++ ")")
      ∧ change_sql DatabasePool.MySQL t pk c = none
      ∧ change_sql DatabasePool.SQLite t pk c = none) := by
  rw [execute_changes_tx exec pool hpool db t pk cs] at hrun
  rcases hfold : cs.foldl (mutation_step exec pool t pk) (db, 0, [], [])
    with ⟨dbW, rows, errs, tr0⟩
  rw [hfold] at hrun
  simp only [Except.ok.injEq, Prod.mk.injEq] at hrun
  obtain ⟨hres, -, htr⟩ := hrun
  refine ⟨?_, ?_, ?_, ?_⟩
  · have htrace := mutation_foldl_trace exec pool t pk cs db 0 [] []
    rw [hfold] at htrace
    rw [← htr]
    simpa using htrace
  · rw [← hres]
  · intro c hc
    cases pool <;> simp [DatabasePool.transactional] at hpool <;>
      rcases hc with h | h <;> simp [change_sql, h]
  · intro c hc
    refine ⟨?_, ?_, ?_⟩ <;> simp [change_sql, hc]

/-- C2 (witness): the amended trace equality at the concrete two-update
Postgres batch. -/
theorem claim_C2_amended_witness :
    trUpd = [chUpd1, chUpd2].filterMap
      (change_sql DatabasePool.Postgres "users" "id") :=
  (claim_C2_amended execFailSecond DatabasePool.Postgres rfl 0 "users" "id"
    [chUpd1, chUpd2]
    { success := false, rows_affected := 1, errors := ["update: dup"] } 0 trUpd
    rfl).1

/-- C3 (code bug, at the failing input): for a single Equals filter on
"status" with value "active", `build_where_clause` compiles exactly
` WHERE "status" = $1` and returns `["active"]` as the parameters, but
`fetch_table_data` discards that vector (the `_params` binding) and
executes the query via `sqlx::query(&query)` with an empty bind list: the
value is never bound to the executed query, contradicting "the filter's
value is the sole parameter bound to the query that is executed". -/
theorem claim_C3_params_never_bound :
    build_where_clause oEq = (" WHERE \"status\" = $1", ["active"])
  ∧ fetch_table_data (fun _ => 0) DatabasePool.Postgres oEq "users" =
      Except.ok
        { mainSql := "SELECT * FROM \"users\" WHERE \"status\" = $1 LIMIT 100 OFFSET 0"
          mainBinds := []
          countSql := "SELECT COUNT(*) as count FROM \"users\" WHERE \"status\" = $1"
          totalCount := some 0 }
  ∧ ([] : List String) ≠ ["active"] :=
  ⟨rfl, rfl, by simp⟩

/-- C4 (counterexample): the query executed on the MySQL path for a
single-Equals-filter options value quotes identifiers with double quotes
(4 of them) and contains no backtick at all — the compiler has no dialect
parameter — refuting "backticks when compiling for MySQL". -/
theorem claim_C4_counterexample :
    fetch_table_data (fun _ => 0) DatabasePool.MySQL oEq "users" =
      Except.ok
        { mainSql := "SELECT * FROM \"users\" WHERE \"status\" = $1 LIMIT 100 OFFSET 0"
          mainBinds := []
          countSql := "SELECT COUNT(*) as count FROM \"users\" WHERE \"status\" = $1"
          totalCount := some 0 }
  ∧ count_char (Char.ofNat 96)
      "SELECT * FROM \"users\" WHERE \"status\" = $1 LIMIT 100 OFFSET 0" = 0
  ∧ count_char (Char.ofNat 34)
      "SELECT * FROM \"users\" WHERE \"status\" = $1 LIMIT 100 OFFSET 0" = 4 :=
  ⟨rfl, by decide, by decide⟩

/-- C4 (amended): the QueryCompiler takes no dialect parameter: identifiers
in its fragments are always wrapped in double quotes, and the very same
query texts are used for Postgres, MySQL and SQLite alike (backticks occur
only in the MutationExecutor's MySQL statements). -/
theorem claim_C4_amended (countOracle : String → Int) (o : QueryOptions)
    (t : String) (p1 p2 : DatabasePool) (h1 : p1.transactional = true)
    (h2 : p2.transactional = true) :
    fetch_table_data countOracle p1 o t = fetch_table_data countOracle p2 o t
  ∧ (∀ cols, o.selected_columns = some cols → cols ≠ [] →
      build_select_columns o =
        String.intercalate ", " (cols.map (fun c => "\"" ++ c ++ "\""))) := by
  constructor
  · cases p1 <;> simp [DatabasePool.transactional] at h1 <;>
      cases p2 <;> simp [DatabasePool.transactional] at h2 <;> rfl
  · intro cols hcols hne
    have hemp : cols.isEmpty = false := by
      cases cols with
      | nil => exact absurd rfl hne
      | cons a l => rfl
    simp [build_select_columns, hcols, hemp]

/-- C4 (witness): the amended theorem at a two-column projection, compared
between Postgres and MySQL. -/
theorem claim_C4_amended_witness :
    fetch_table_data (fun _ => 0) DatabasePool.Postgres oSel "t" =
      fetch_table_data (fun _ => 0) DatabasePool.MySQL oSel "t"
  ∧ build_select_columns oSel = "\"a\", \"b\"" := by
  have h := claim_C4_amended (fun _ => 0) oSel "t" DatabasePool.Postgres
    DatabasePool.MySQL rfl rfl
  refine ⟨h.1, ?_⟩
  rw [h.2 ["a", "b"] rfl (by simp)]
  rfl

/-- C5: whenever a cursor is set, the compiler synthesizes the condition
`"col" > ?` for direction After (`<` for Before) and `fetch_table_data`
appends it to the WHERE clause with AND — regardless of the configured
filter logic, also when it is Or. -/
theorem claim_C5 (o : QueryOptions) (c : CursorConfig)
    (h : o.cursor = some c) :
    build_cursor_clause o =
      some ("\"" ++ c.column ++ "\" " ++
          (match c.direction with
           | CursorDirection.After => ">"
           | CursorDirection.Before => "<") ++ " ?",
        json_to_sql_value c.value)
  ∧ fetch_where_clause o =
      (if (build_where_clause o).1.isEmpty
       then " WHERE " ++ ("\"" ++ c.column ++ "\" " ++
          (match c.direction with
           | CursorDirection.After => ">"
           | CursorDirection.Before => "<") ++ " ?")
       else (build_where_clause o).1 ++ " AND " ++ ("\"" ++ c.column ++ "\" " ++
          (match c.direction with
           | CursorDirection.After => ">"
           | CursorDirection.Before => "<") ++ " ?")) := by
  constructor
  · simp [build_cursor_clause, h]
  · simp [fetch_where_clause, build_cursor_clause, h]

/-- C5 (witness): with an Or filter logic, one Equals filter and an After
cursor on "id", the cursor condition is joined with AND. -/
theorem claim_C5_witness :
    build_cursor_clause oCur = some ("\"id\" > ?", "10")
  ∧ fetch_where_clause oCur = " WHERE \"status\" = $1 AND \"id\" > ?" := by
  have h := claim_C5 oCur
    { column := "id", direction := CursorDirection.After, value := Json.num 10 }
    rfl
  exact ⟨by rw [h.1]; rfl, by rw [h.2]; rfl⟩

/-- C6: with a cursor, ordering is forced to the cursor column (ASC for
After, DESC for Before) ignoring any explicit sort, and pagination is
`LIMIT n` with no OFFSET; without a cursor, the explicit sort (if any) is
used and pagination is `LIMIT n OFFSET o`. -/
theorem claim_C6 (o : QueryOptions) :
    (∀ c : CursorConfig, o.cursor = some c →
      build_order_clause o = " ORDER BY \"" ++ c.column ++ "\" " ++
          (match c.direction with
           | CursorDirection.After => "ASC"
           | CursorDirection.Before => "DESC")
      ∧ build_pagination_clause o = " LIMIT " ++ toString o.limit)
  ∧ (o.cursor = none →
      build_pagination_clause o =
        " LIMIT " ++ toString o.limit ++ " OFFSET " ++ toString o.offset
      ∧ build_order_clause o =
        (match o.sort with
         | some s => " ORDER BY \"" ++ s.column ++ "\" " ++
             (match s.direction with
              | SortDirection.Asc => "ASC"
              | SortDirection.Desc => "DESC")
         | none => "")) := by
  constructor
  · intro c h
    constructor
    · simp [build_order_clause, h]
    · simp [build_pagination_clause, h]
  · intro h
    constructor
    · simp [build_pagination_clause, h]
    · simp [build_order_clause, h]

/-- C6 (witness): the cursor case at concrete options carrying a
conflicting explicit sort and a nonzero offset, both ignored. -/
theorem claim_C6_witness :
    build_order_clause oCur = " ORDER BY \"id\" ASC"
  ∧ build_pagination_clause oCur = " LIMIT 5" := by
  have h := (claim_C6 oCur).1
    { column := "id", direction := CursorDirection.After, value := Json.num 10 }
    rfl
  exact ⟨by rw [h.1]; rfl, by rw [h.2]; rfl⟩

/-- C7: with `skip_count` the response's total count is absent; otherwise
it is the result of the separate COUNT query, whose text is the COUNT(*)
over the plain filter WHERE clause — carrying no LIMIT/OFFSET and no
cursor condition, hence independent of `limit`, `offset` and `cursor`. -/
theorem claim_C7 (countOracle : String → Int) (pool : DatabasePool)
    (hpool : pool.transactional = true) (o : QueryOptions) (t : String)
    (q : FetchQueries)
    (hq : fetch_table_data countOracle pool o t = Except.ok q) :
    (o.skip_count = true → q.totalCount = none)
  ∧ (o.skip_count = false →
      q.totalCount = some (countOracle (fetch_count_query o t)))
  ∧ q.countSql =
      "SELECT COUNT(*) as count FROM \"" ++ t ++ "\"" ++
        (build_where_clause o).1
  ∧ (∀ (l off : Int) (cur : Option CursorConfig),
      fetch_count_query { o with limit := l, offset := off, cursor := cur } t =
        fetch_count_query o t) := by
  have hq2 : q =
      { mainSql := fetch_main_query o t
        mainBinds := []
        countSql := fetch_count_query o t
        totalCount := if o.skip_count then none
          else some (countOracle (fetch_count_query o t)) } := by
    cases pool <;> simp [DatabasePool.transactional] at hpool <;>
      (simp only [fetch_table_data] at hq; exact (Except.ok.inj hq).symm)
  subst hq2
  refine ⟨?_, ?_, ?_, ?_⟩
  · intro h; simp [h]
  · intro h; simp [h]
  · rfl
  · intro l off cur; rfl

/-- C7 (witness): the skip_count case and the COUNT query text at the
concrete single-filter options. -/
theorem claim_C7_witness :
    qSkip.totalCount = none
  ∧ qSkip.countSql =
      "SELECT COUNT(*) as count FROM \"" ++ "users" ++ "\"" ++
        (build_where_clause oSkip).1 := by
  have h := claim_C7 (fun _ => 0) DatabasePool.Postgres rfl oSkip "users"
    qSkip rfl
  exact ⟨h.1 rfl, h.2.2.1⟩

/-- C8 (counterexample): a single In filter over two values emits two
positional placeholders ($1 and $2) although only one filter has a
resolvable value — refuting "exactly as many placeholders as filters with
resolvable values". -/
theorem claim_C8_counterexample :
    build_where_clause oIn = (" WHERE \"c\" IN ($1, $2)", ["1", "2"])
  ∧ count_char (Char.ofNat 36) (build_where_clause oIn).1 = 2
  ∧ spec_resolvable_count oIn.filters = 1
  ∧ (2 : Nat) ≠ 1 :=
  ⟨rfl, by decide, rfl, by decide⟩

/-- C8 (amended): the compiled clause is the list of per-filter conditions
with placeholders numbered sequentially in emission order, joined uniformly
by the single configured logic operator; filters whose operator requires a
value but has none are skipped; the number of placeholders (= bound
parameters) is one per scalar-valued filter, zero per null-check, and the
array length per In filter — not one per filter. -/
theorem claim_C8_amended (o : QueryOptions) :
    build_where_clause o =
      (if (seq_conditions o.filters 0).1.isEmpty then ("", [])
       else
         (" WHERE " ++ String.intercalate
            (match o.filter_logic with
             | FilterLogic.And => " AND "
             | FilterLogic.Or => " OR ") (seq_conditions o.filters 0).1,
          (seq_conditions o.filters 0).2))
  ∧ (build_where_clause o).2.length = arity_sum o.filters := by
  refine ⟨build_where_clause_eq o, ?_⟩
  rw [build_where_clause_eq o]
  by_cases h : (seq_conditions o.filters 0).1.isEmpty
  · have hp : (seq_conditions o.filters 0).2 = [] :=
      seq_conditions_conds_empty o.filters 0 (List.isEmpty_iff.mp h)
    have := seq_conditions_params_length o.filters 0
    rw [hp] at this
    simpa [h] using this
  · simpa [h] using seq_conditions_params_length o.filters 0

/-- C9 (counterexample): with a Postgres pool stored under "a" but one
`Arc` clone of it still held outside the registry, `disconnect "a"`
removes the entry and returns Ok, yet `Arc::try_unwrap` fails and
`pool.close()` never runs — the pool is not drained, refuting "it is
removed from the map and closed". -/
theorem claim_C9_counterexample :
    psShared "a" = some { pool := DatabasePool.Postgres, extraRefs := 1 }
  ∧ DatabasePool.Postgres.transactional = true
  ∧ (disconnect psShared "a").ok = true
  ∧ (disconnect psShared "a").closed = false
  ∧ is_connected (disconnect psShared "a").state "a" = false :=
  ⟨rfl, rfl, rfl, rfl, rfl⟩

/-- C9 (amended): `disconnect` always succeeds and afterwards
`is_connected` is false; an absent id is a strict no-op; a present pool is
removed (other ids untouched) and is closed exactly when the registry held
the last reference and the pool is relational — with an outstanding clone
it is removed but not closed. -/
theorem claim_C9_amended (ps : Pools) (id : String) :
    (disconnect ps id).ok = true
  ∧ is_connected (disconnect ps id).state id = false
  ∧ (∀ e : PoolEntry, ps id = some e →
      (disconnect ps id).closed = ((e.extraRefs == 0) && e.pool.transactional)
      ∧ (∀ k, k ≠ id → (disconnect ps id).state k = ps k))
  ∧ (ps id = none → (disconnect ps id).state = ps) := by
  refine ⟨?_, ?_, ?_, ?_⟩
  · cases h : ps id <;> simp [disconnect, h]
  · cases h : ps id <;> simp [disconnect, is_connected, h]
  · intro e he
    constructor
    · simp [disconnect, he]
    · intro k hk; simp [disconnect, he, hk]
  · intro h; simp [disconnect, h]

/-- C9 (witness): the amended theorem at a registry holding the sole
reference to a Postgres pool under "a": disconnect succeeds, the pool is
closed, and the id is gone. -/
theorem claim_C9_amended_witness :
    (disconnect psSole "a").ok = true
  ∧ (disconnect psSole "a").closed = true
  ∧ is_connected (disconnect psSole "a").state "a" = false := by
  have h := claim_C9_amended psSole "a"
  have h3 := (h.2.2.1 { pool := DatabasePool.Postgres, extraRefs := 0 } rfl).1
  exact ⟨h.1, by rw [h3]; rfl, h.2.1⟩

/-- C10: on a transactional engine, a batch in which every change's type
lies outside the set handled by that engine's branch — outside
insert/update/delete for Postgres, outside update/delete for MySQL and
SQLite (whose branches handle no insert) — executes no SQL at all,
commits the empty transaction (the database state is unchanged) and
returns success with zero rows affected and no errors: unhandled types
are silently skipped, never reported. -/
theorem claim_C10 {DB : Type}
    (exec : DB → String → Except String (DB × Nat)) (pool : DatabasePool)
    (hpool : pool.transactional = true) (db : DB) (t pk : String)
    (cs : List PendingChange)
    (hcs : ∀ c ∈ cs, c.change_type ∉ handled_change_types pool) :
    execute_changes exec pool db t pk cs =
      Except.ok ({ success := true, rows_affected := 0, errors := [] }, db,
        ([] : List String)) := by
  have hnone : ∀ c ∈ cs, change_sql pool t pk c = none := fun c hc =>
    change_sql_none_of_unhandled pool t pk c (hcs c hc)
  rw [execute_changes_tx exec pool hpool db t pk cs,
    mutation_foldl_all_none exec pool t pk cs (db, 0, [], []) hnone]
  rfl

/-- C10 (witness): an insert-only batch on MySQL — a type outside that
engine's handled set — and an "upsert" change on SQLite are both skipped
and report success with nothing executed. -/
theorem claim_C10_witness :
    execute_changes execAllOk DatabasePool.MySQL (0 : Nat) "users" "id"
      [chIns] =
      Except.ok ({ success := true, rows_affected := 0, errors := [] },
        (0 : Nat), ([] : List String))
  ∧ execute_changes execAllOk DatabasePool.SQLite (0 : Nat) "users" "id"
      [chNoop] =
      Except.ok ({ success := true, rows_affected := 0, errors := [] },
        (0 : Nat), ([] : List String)) :=
  ⟨claim_C10 execAllOk DatabasePool.MySQL rfl 0 "users" "id" [chIns]
    (by
      intro c hc
      simp only [List.mem_singleton] at hc
      subst hc
      simp [handled_change_types, chIns]),
   claim_C10 execAllOk DatabasePool.SQLite rfl 0 "users" "id" [chNoop]
    (by
      intro c hc
      simp only [List.mem_singleton] at hc
      subst hc
      simp [handled_change_types, chNoop])⟩

end Velocity

